import Mathlib

/-!
# Verification of the riot-lol-api request engine

A shallow embedding, in Lean 4, of the request/queueing engine of
`lib/index.js` (the current version of the file: the `RiotRequest`
constructor taking `(apiKey, cache)`, `generateQueue(region, method)`,
`queueWorker`/`getFromRiot`, and `request(region, method, endpoint,
cacheStrategy, done)`), together with theorems checking the
natural-language specification against it.

JavaScript strings are modelled as lists of code points (`JsStr`); the
repository only ever lowercases ASCII region/method tags.  Numbers carried
by rate-limit headers are modelled as integers (the JS code performs
`"10" - "3"`-style numeric coercion on the split header strings); delays
are modelled in milliseconds as rationals (the `retry-after` header may be
fractional, e.g. `0.01`).
-/

namespace RiotLolApi

/-- A JavaScript string, as its list of code points. -/
abbrev JsStr := List Nat

/-- One code point of `String.prototype.toLowerCase()` on the ASCII range
(the only range the library's region/method tags use). -/
def jsCharToLower (c : Nat) : Nat :=
  if 65 ≤ c ∧ c ≤ 90 then c + 32 else c

/-- `region.toLowerCase()` as used at the top of `request()`. -/
def jsToLowerCase (s : JsStr) : JsStr :=
  s.map jsCharToLower

/-! ## Rate-limit snapshot parsing (`readRateLimit` and the header block
of `getFromRiot`, lib/index.js lines 496–517)

`readRateLimit` turns a header such as `"10:1,420000:600"` into
`[[10, 1], [420000, 600]]`; we model the already-split result as a list of
`RateEntry` values. -/

/-- One `value:window` pair of a rate-limit header. -/
structure RateEntry where
  value : Int
  window : Int
deriving DecidableEq, Repr

/-- The four rate-limit headers the engine reads
(`x-app-rate-limit-count`, `x-method-rate-limit-count`,
`x-app-rate-limit`, `x-method-rate-limit`), each parsed by
`readRateLimit`. -/
structure RateHeaders where
  appLimit : List RateEntry
  appCount : List RateEntry
  methodLimit : List RateEntry
  methodCount : List RateEntry
deriving DecidableEq, Repr

/-- `limit.map(function(limit, index) { return limit[0] - count[index][0]; })`
with `limit = appRateLimit.concat(methodRateLimit)` and
`count = appRateCount.concat(methodRateCount)`: calls left per window. -/
def callsLeft (h : RateHeaders) : List Int :=
  List.zipWith (fun l c => l.value - c.value)
    (h.appLimit ++ h.methodLimit) (h.appCount ++ h.methodCount)

/-- `Math.min.apply(Math, ...)` over a list of integers; `none` models the
degenerate `Math.min()` = `Infinity` of an empty list (real headers always
carry at least one window, so this branch never fires). -/
def jsMinList (l : List Int) : Option Int :=
  l.foldr (fun x m => some (match m with | none => x | some y => min x y)) none

/-- `availableConcurrency = Math.max(1, Math.min.apply(Math, limit.map(...)))`
(lib/index.js lines 506–511); when the header lists are degenerate-empty the
queue's concurrency is left unchanged (the JS code would compute `Infinity`,
which no real response produces). -/
def updateFromHeaders (concurrency : Int) (h : RateHeaders) : Int :=
  match jsMinList (callsLeft h) with
  | some m => max 1 m
  | none => concurrency

/-- The queue's initial concurrency: `var defaultConcurrency = 20`
(lib/index.js line 464), also used by `async.queue(queueWorker,
defaultConcurrency)` at line 594. -/
def defaultConcurrency : Int := 20

/-! ## One upstream attempt (`getFromRiot`'s `.end` callback) -/

/-- The outcome of one `superagent` call, as seen by the `.end(err, res)`
callback: a 2xx success (`err` null), an HTTP error (`err.status` set, a
response present, possibly with rate-limit headers and a `retry-after`
header in seconds), or a timeout (`err.timeout` true, no status). -/
inductive Attempt where
  | ok (headers : Option RateHeaders) (body : Nat)
  | httpError (status : Nat) (headers : Option RateHeaders) (retryAfter : Option ℚ)
  | timeoutErr
deriving DecidableEq, Repr

/-- The `err.extra` diagnostic object attached before surfacing an error
(lib/index.js lines 553–561). -/
structure Extra where
  region : JsStr
  endpoint : JsStr
  status : Option Nat
  currentConcurrency : Int
  defaultConcurrency : Int
  timeout : Bool
  restartedAfter500 : Bool
deriving DecidableEq, Repr

/-- The annotated error handed to the caller's callback:
`err.statusCode`, `err.riotInternal`, `err.timeout`, `err.extra`
(lib/index.js lines 534–562).  `statusCode` is `none` for timeouts, whose
replacement `Error` has no HTTP status. -/
structure ErrorInfo where
  statusCode : Option Nat
  riotInternal : Bool
  timeout : Bool
  extra : Extra
deriving DecidableEq, Repr

/-- What one run of the `.end` callback decides to do with the task. -/
inductive StepOutcome where
  /-- `cb(err, res && res.body, false)` with a truthy annotated `err`. -/
  | fail (e : ErrorInfo)
  /-- `cb(null, res.body, false)`. -/
  | deliver (body : Nat)
  /-- the 429 branch: `setTimeout(..., retryAfter)` reschedules the same
  task; the payload is the delay in milliseconds. -/
  | retry429 (delayMs : ℚ)
  /-- the first-500/503 branch: `setTimeout(..., 25)` reschedules the same
  task with `task.restartedAfter500` now set. -/
  | retry500 (status : Nat)
deriving DecidableEq, Repr

/-- One run of `getFromRiot`'s `.end(err, res)` callback
(lib/index.js lines 495–566): process rate-limit headers, then dispatch on
429 / timeout / retriable 5xx / other error / success.  Returns the
queue's concurrency right after the callback together with the decision.
The `retry-after` header is used verbatim when present and replaced by the
hardcoded 2 seconds otherwise (`(res.headers['retry-after'] || 2) * 1000`). -/
def stepAttempt (region endpoint : JsStr) (concurrency : Int)
    (restartedAfter500 : Bool) (a : Attempt) : Int × StepOutcome :=
  -- `if(res && res.headers && res.headers['x-app-rate-limit-count'])` (line 496)
  let c1 := match a with
    | .ok (some h) _ => updateFromHeaders concurrency h
    | .httpError _ (some h) _ => updateFromHeaders concurrency h
    | _ => concurrency
  match a with
  | .ok _ body => (c1, .deliver body)
  | .timeoutErr =>
      -- `err = new Error("... [TIMEOUT]"); err.timeout = true;` — the fresh
      -- error has no `.status`, so the 500/503 retry test fails and the
      -- error is annotated and surfaced at once (lines 534–565)
      (c1, .fail {
        statusCode := none, riotInternal := true, timeout := true,
        extra := {
          region := region, endpoint := endpoint, status := none,
          currentConcurrency := c1, defaultConcurrency := defaultConcurrency,
          timeout := true, restartedAfter500 := restartedAfter500 } })
  | .httpError status _ retryAfter =>
      if status = 429 then
        -- `requestQueue.concurrency = 1;` then reschedule (lines 519–532)
        (1, .retry429 ((retryAfter.getD 2) * 1000))
      else if (status = 500 ∨ status = 503) ∧ restartedAfter500 = false then
        -- first 500/503: flag and retry in 25ms (lines 542–549)
        (c1, .retry500 status)
      else
        (c1, .fail {
          statusCode := some status, riotInternal := true, timeout := false,
          extra := {
            region := region, endpoint := endpoint, status := some status,
            currentConcurrency := c1, defaultConcurrency := defaultConcurrency,
            timeout := false, restartedAfter500 := restartedAfter500 } })

/-! ## The worker loop (`queueWorker`, lib/index.js lines 474–591)

Each invocation of `queueWorker` first consults the cache (unless the
task's `cacheStrategy` is falsy) and, on a miss, runs the fetcher; the 429
and first-500/503 branches re-invoke `queueWorker` on the same task after
their delay.  We drive the recursion by the finite script of upstream
attempt outcomes; an empty script means the next upstream call is still
outstanding. -/

/-- The value the worker's `done(err, content, readFromCache)` receives,
or `pending` when the script of upstream responses is exhausted. -/
inductive WorkerResult where
  | fail (e : ErrorInfo)
  | deliver (data : Nat) (readFromCache : Bool)
  | pending
deriving DecidableEq, Repr

/-- Observable trace of one task's trip through `queueWorker`. -/
structure WorkerRun where
  /-- queue concurrency after the last callback ran -/
  concurrency : Int
  /-- upstream calls actually made -/
  attempts : Nat
  /-- calls to `cache.get` made by the worker -/
  cacheGets : Nat
  /-- reschedule delays in milliseconds, in order -/
  delays : List ℚ
  result : WorkerResult
deriving DecidableEq, Repr

/-- `cache.get` calls a single `queueWorker` invocation performs:
1 when the task's `cacheStrategy` is truthy, else 0 (lines 575–581). -/
def workerGets (cacheStrategy : Nat) : Nat :=
  if cacheStrategy ≠ 0 then 1 else 0

/-- `queueWorker` (lib/index.js lines 474–591) on one task, driven by the
script of upstream responses.  `cacheVal` is what `cache.get(region,
task.endpoint, ...)` yields (the cache contents for this key), constant
over the task's retries. -/
def runWorker (region endpoint : JsStr) (cacheStrategy : Nat)
    (cacheVal : Option Nat) :
    Int → Bool → List Attempt → WorkerRun
  | concurrency, _, [] =>
    -- `getFromCache`/`actOnCache` (lines 575–589): a hit completes the
    -- task, a miss starts an upstream call that is still outstanding
    if h : cacheStrategy ≠ 0 ∧ cacheVal.isSome then
      { concurrency := concurrency, attempts := 0, cacheGets := 1,
        delays := [], result := .deliver (cacheVal.get h.2) true }
    else
      { concurrency := concurrency, attempts := 0,
        cacheGets := workerGets cacheStrategy,
        delays := [], result := .pending }
  | concurrency, restartedAfter500, a :: rest =>
    -- `getFromCache` (lines 575–581): skipped when `!task.cacheStrategy`
    if h : cacheStrategy ≠ 0 ∧ cacheVal.isSome then
      -- `actOnCache`: `return cb(null, cachedData, true)` (lines 582–586)
      { concurrency := concurrency, attempts := 0, cacheGets := 1,
        delays := [], result := .deliver (cacheVal.get h.2) true }
    else
      match stepAttempt region endpoint concurrency restartedAfter500 a with
      | (c1, .fail e) =>
        { concurrency := c1, attempts := 1,
          cacheGets := workerGets cacheStrategy,
          delays := [], result := .fail e }
      | (c1, .deliver b) =>
        { concurrency := c1, attempts := 1,
          cacheGets := workerGets cacheStrategy,
          delays := [], result := .deliver b false }
      | (_, .retry429 d) =>
        -- timer fires: `requestQueue.concurrency = defaultConcurrency;
        -- queueWorker(task, cb);` (lines 526–530)
        let r := runWorker region endpoint cacheStrategy cacheVal
          defaultConcurrency restartedAfter500 rest
        { r with
          attempts := r.attempts + 1,
          cacheGets := workerGets cacheStrategy + r.cacheGets,
          delays := d :: r.delays }
      | (c1, .retry500 _) =>
        -- timer fires after 25ms with `task.restartedAfter500 = true`
        let r := runWorker region endpoint cacheStrategy cacheVal c1 true rest
        { r with
          attempts := r.attempts + 1,
          cacheGets := workerGets cacheStrategy + r.cacheGets,
          delays := 25 :: r.delays }

/-! ## The caller-facing entry point (`request`, lib/index.js lines 604–660) -/

deriving instance DecidableEq for Except

/-- Observable trace of one `request()` call. -/
structure RequestOutcome where
  /-- `var queueName = region + method;` after lowercasing (line 607) -/
  queueKey : JsStr
  /-- the region handed to `generateQueue` and captured by its closures:
  the worker's `cache.get(region, ...)` and the URL host
  `"https://" + region + ".api.riotgames.com"` both use it -/
  queueRegion : JsStr
  /-- the saturation pre-check `cache.get` happened (lines 629–636) -/
  preCacheGet : Bool
  /-- the task was pushed onto the queue (lines 644–647) -/
  enqueued : Bool
  /-- trace of the worker when the task was enqueued -/
  workerRun : Option WorkerRun
  /-- arguments of every `cache.set(region, endpoint, cacheStrategy, data)`
  made on behalf of this call (lines 650–657) -/
  setCalls : List (JsStr × JsStr × Nat × Nat)
  /-- what the caller's `done` receives; `none` while still pending -/
  result : Option (Except ErrorInfo Nat)
deriving DecidableEq, Repr

/-- The tail of the waterfall: `saveToCache(data, readFromCache, cb)`
(lib/index.js lines 649–658) applied to the worker's outcome; an error
aborts the waterfall before `saveToCache` runs. -/
def finishRequest (lregion endpoint : JsStr) (cacheStrategy : Nat)
    (run : WorkerRun) : List (JsStr × JsStr × Nat × Nat) × Option (Except ErrorInfo Nat) :=
  match run.result with
  | .fail e => ([], some (.error e))
  | .pending => ([], none)
  | .deliver d readFromCache =>
    if cacheStrategy ≠ 0 ∧ readFromCache = false then
      ([(lregion, endpoint, cacheStrategy, d)], some (.ok d))
    else
      ([], some (.ok d))

/-- The cache/queue part of a `request()` trace (everything except the
queue naming, which only depends on the lowercased region/method). -/
structure RequestCore where
  preCacheGet : Bool
  enqueued : Bool
  workerRun : Option WorkerRun
  setCalls : List (JsStr × JsStr × Nat × Nat)
  result : Option (Except ErrorInfo Nat)
deriving DecidableEq, Repr

/-- The `async.waterfall` of `request()` (lib/index.js lines 628–659),
with `lregion` the already-lowercased region. -/
def requestCore (lregion endpoint : JsStr) (cacheStrategy : Nat)
    (running concurrency : Int) (preVal cacheVal : Option Nat)
    (script : List Attempt) : RequestCore :=
  -- `getFromCache` (lines 629–637): the pre-check is skipped when caching
  -- is off or `requestQueue.running() < requestQueue.concurrency`
  if cacheStrategy ≠ 0 ∧ ¬(running < concurrency) then
    match preVal with
    | some d =>
      -- `actOnCache`: `return cb(null, cachedData, true)` (lines 639–642),
      -- then `saveToCache` skips the write since `readFromCache` is true
      { preCacheGet := true, enqueued := false, workerRun := none,
        setCalls := [], result := some (.ok d) }
    | none =>
      let run := runWorker lregion endpoint cacheStrategy cacheVal
        concurrency false script
      { preCacheGet := true, enqueued := true, workerRun := some run,
        setCalls := (finishRequest lregion endpoint cacheStrategy run).1,
        result := (finishRequest lregion endpoint cacheStrategy run).2 }
  else
    let run := runWorker lregion endpoint cacheStrategy cacheVal
      concurrency false script
    { preCacheGet := false, enqueued := true, workerRun := some run,
      setCalls := (finishRequest lregion endpoint cacheStrategy run).1,
      result := (finishRequest lregion endpoint cacheStrategy run).2 }

/-- `RiotRequest.prototype.request(region, method, endpoint, cacheStrategy,
done)` (lib/index.js lines 604–660).  `running`/`concurrency` are the
queue's state when the call is made, `preVal` is what the saturation
pre-check `cache.get` would yield, `cacheVal` what the worker-side
`cache.get` would yield, and `script` the upstream responses. -/
def request (region method endpoint : JsStr) (cacheStrategy : Nat)
    (running concurrency : Int) (preVal cacheVal : Option Nat)
    (script : List Attempt) : RequestOutcome :=
  -- `region = region.toLowerCase(); method = method.toLowerCase();
  --  var queueName = region + method;` (lines 605–607)
  let lregion := jsToLowerCase region
  let lmethod := jsToLowerCase method
  let core := requestCore lregion endpoint cacheStrategy running concurrency
    preVal cacheVal script
  { queueKey := lregion ++ lmethod, queueRegion := lregion,
    preCacheGet := core.preCacheGet, enqueued := core.enqueued,
    workerRun := core.workerRun, setCalls := core.setCalls,
    result := core.result }

/-- The queue registry (lib/index.js lines 617–626): queues are keyed by
`region + method` in `this.requestQueues`, created on first use and reused
afterwards.  A queue is identified here by a `Nat` id; `fresh` is the id
`generateQueue` would assign to a newly created queue. -/
def getOrCreateQueue (queues : List (JsStr × Nat)) (key : JsStr)
    (fresh : Nat) : Nat × List (JsStr × Nat) :=
  match queues.lookup key with
  | some q => (q, queues)
  | none => (fresh, (key, fresh) :: queues)

/-! ## The constructor (`RiotRequest`, lib/index.js lines 428–455) -/

/-- The caller-supplied cache object, reduced to which of the two required
capabilities it carries (`cache.get` / `cache.set` truthiness is all the
constructor inspects). -/
structure CacheObject where
  hasGet : Bool
  hasSet : Bool
deriving DecidableEq, Repr

/-- The built-in no-op cache installed when no cache is supplied
(lib/index.js lines 433–444); it has both `get` and `set`. -/
def defaultCache : CacheObject := { hasGet := true, hasSet := true }

/-- The state a successfully constructed `RiotRequest` holds. -/
structure RiotRequestInstance where
  apiKey : JsStr
  cache : CacheObject
  requestQueues : List (JsStr × Nat)
deriving DecidableEq, Repr

/-- The `RiotRequest` constructor (lib/index.js lines 428–455).
`none` or `some []` model a falsy `apiKey`. -/
def mkRiotRequest (apiKey : Option JsStr) (cache : Option CacheObject) :
    Except (List Char) RiotRequestInstance :=
  if apiKey = none ∨ apiKey = some [] then
    .error ("Missing Riot API key.".data)
  else
    -- `if(!cache) { cache = ... }` then `if(!cache.get || !cache.set)`
    if (cache.getD defaultCache).hasGet = false
        ∨ (cache.getD defaultCache).hasSet = false then
      .error ("Invalid cache object".data)
    else
      .ok { apiKey := apiKey.getD [], cache := cache.getD defaultCache,
            requestQueues := [] }

/-! ## Throttle reservation (spec §4.4)

`setThrottle` is not part of lib/index.js; only the README and the test
suite mention it, so the definitions below are modelled from the spec. -/

/-- Modelled from the spec: the Throttle Reservation table (§3, §4.4) —
`setThrottle` is absent from lib/index.js.  "mapping from (platform,
method) → reserved-capacity integer ... Entries default to 0 (no
reservation).  A method-only entry (no platform) applies to all platforms
for that method." -/
structure ThrottleTable where
  perPlatform : List ((JsStr × JsStr) × Int)
  perMethod : List (JsStr × Int)
deriving DecidableEq, Repr

/-- Modelled from the spec: the table before any operator call. -/
def emptyThrottle : ThrottleTable := { perPlatform := [], perMethod := [] }

/-- Modelled from the spec: `setThrottle(platform, method, amount)`
"reserves `amount` units of concurrency away from a specific queue". -/
def setThrottlePlatform (t : ThrottleTable) (platform method : JsStr)
    (amount : Int) : ThrottleTable :=
  { t with perPlatform := ((platform, method), amount) :: t.perPlatform }

/-- Modelled from the spec: `setThrottle(method, amount)` "(platform
omitted) applies the same reservation to every platform for that
method". -/
def setThrottleAll (t : ThrottleTable) (method : JsStr) (amount : Int) :
    ThrottleTable :=
  { t with perMethod := (method, amount) :: t.perMethod }

/-- Modelled from the spec: the reservation the Concurrency Controller
reads for a (platform, method) queue; 0 when no entry applies. -/
def throttleFor (t : ThrottleTable) (platform method : JsStr) : Int :=
  match t.perPlatform.lookup (platform, method) with
  | some a => a
  | none =>
    match t.perMethod.lookup method with
    | some a => a
    | none => 0

/-- Modelled from the spec: "a queue's effective capacity is
`max(1, observedConcurrency − reservation)`" (§4.4), applied on top of the
source's header-derived `updateFromHeaders` value. -/
def effectiveConcurrency (concurrency : Int) (h : RateHeaders)
    (t : ThrottleTable) (platform method : JsStr) : Int :=
  max 1 (updateFromHeaders concurrency h - throttleFor t platform method)

/-! ## Concurrency assignments (for the ≥ 1 invariant) -/

/-- Every site of lib/index.js that assigns `requestQueue.concurrency`. -/
inductive ConcurrencyAssign where
  /-- `async.queue(queueWorker, defaultConcurrency)` (line 594) -/
  | initial
  /-- the snapshot-derived update (lines 506–514) -/
  | headerUpdate (h : RateHeaders)
  /-- `requestQueue.concurrency = 1;` in the 429 branch (line 522) -/
  | rateLimited429
  /-- `requestQueue.concurrency = defaultConcurrency;` when the 429
  backoff timer fires (line 528) -/
  | afterBackoff
  /-- the idle reset (lines 481–486): `requestQueue.concurrency =
  defaultConcurrency;` when the last network call is older than
  `timeBeforeReset + 100` -/
  | idleReset

/-- The new concurrency each assignment site stores. -/
def applyAssign (concurrency : Int) : ConcurrencyAssign → Int
  | .initial => defaultConcurrency
  | .headerUpdate h => updateFromHeaders concurrency h
  | .rateLimited429 => 1
  | .afterBackoff => defaultConcurrency
  | .idleReset => defaultConcurrency

/-! ## Helper lemmas -/

theorem jsCharToLower_idem (c : Nat) :
    jsCharToLower (jsCharToLower c) = jsCharToLower c := by
  simp only [jsCharToLower]
  split
  · next h => rw [if_neg (by omega)]
  · rfl

theorem jsToLowerCase_idem (s : JsStr) :
    jsToLowerCase (jsToLowerCase s) = jsToLowerCase s := by
  simp [jsToLowerCase, List.map_map, Function.comp_def, jsCharToLower_idem]

/-- With a falsy `cacheStrategy` the worker never touches the cache, so
its run does not depend on the cache contents, and it makes no `get`. -/
theorem runWorker_strategy_zero (region endpoint : JsStr) :
    ∀ (script : List Attempt) (cv cv' : Option Nat) (c : Int) (f : Bool),
      runWorker region endpoint 0 cv c f script
        = runWorker region endpoint 0 cv' c f script ∧
      (runWorker region endpoint 0 cv c f script).cacheGets = 0 := by
  intro script
  induction script with
  | nil =>
    intro cv cv' c f
    simp [runWorker, workerGets]
  | cons a rest ih =>
    intro cv cv' c f
    cases hstep : stepAttempt region endpoint c f a with
    | mk c1 out =>
      cases out with
      | fail e => simp [runWorker, hstep, workerGets]
      | deliver b => simp [runWorker, hstep, workerGets]
      | retry429 d =>
        obtain ⟨heq, hget⟩ := ih cv cv' defaultConcurrency f
        have hget' :
            (runWorker region endpoint 0 cv' defaultConcurrency f rest).cacheGets = 0 :=
          heq ▸ hget
        simp [runWorker, hstep, workerGets, heq, hget']
      | retry500 s =>
        obtain ⟨heq, hget⟩ := ih cv cv' c1 true
        have hget' :
            (runWorker region endpoint 0 cv' c1 true rest).cacheGets = 0 :=
          heq ▸ hget
        simp [runWorker, hstep, workerGets, heq, hget']

/-- Shape of `requestCore` when the pre-check runs and hits. -/
theorem requestCore_prehit (lregion endpoint : JsStr) (cs : Nat)
    (running concurrency : Int) (preVal cacheVal : Option Nat)
    (script : List Attempt)
    (hcond : cs ≠ 0 ∧ ¬(running < concurrency)) (d : Nat)
    (hp : preVal = some d) :
    requestCore lregion endpoint cs running concurrency preVal cacheVal script
      = { preCacheGet := true, enqueued := false, workerRun := none,
          setCalls := [], result := some (.ok d) } := by
  unfold requestCore
  rw [if_pos hcond, hp]

/-- Shape of `requestCore` when the pre-check runs and misses. -/
theorem requestCore_enqueue_sat (lregion endpoint : JsStr) (cs : Nat)
    (running concurrency : Int) (preVal cacheVal : Option Nat)
    (script : List Attempt)
    (hcond : cs ≠ 0 ∧ ¬(running < concurrency)) (hp : preVal = none) :
    requestCore lregion endpoint cs running concurrency preVal cacheVal script
      = { preCacheGet := true, enqueued := true,
          workerRun := some (runWorker lregion endpoint cs cacheVal
            concurrency false script),
          setCalls := (finishRequest lregion endpoint cs
            (runWorker lregion endpoint cs cacheVal concurrency false script)).1,
          result := (finishRequest lregion endpoint cs
            (runWorker lregion endpoint cs cacheVal concurrency false script)).2 } := by
  unfold requestCore
  rw [if_pos hcond, hp]

/-- Shape of `requestCore` when the pre-check is skipped. -/
theorem requestCore_enqueue_unsat (lregion endpoint : JsStr) (cs : Nat)
    (running concurrency : Int) (preVal cacheVal : Option Nat)
    (script : List Attempt)
    (hcond : ¬(cs ≠ 0 ∧ ¬(running < concurrency))) :
    requestCore lregion endpoint cs running concurrency preVal cacheVal script
      = { preCacheGet := false, enqueued := true,
          workerRun := some (runWorker lregion endpoint cs cacheVal
            concurrency false script),
          setCalls := (finishRequest lregion endpoint cs
            (runWorker lregion endpoint cs cacheVal concurrency false script)).1,
          result := (finishRequest lregion endpoint cs
            (runWorker lregion endpoint cs cacheVal concurrency false script)).2 } := by
  unfold requestCore
  rw [if_neg hcond]

/-! ## Claim theorems -/

/-- C8: every assignment the engine performs on a queue's `concurrency`
(the initial default, the snapshot-derived update, the 429 handler, the
post-backoff restore and the idle reset) leaves it ≥ 1; consequently any
sequence of assignments starting from the initial default keeps
`concurrency ≥ 1` at all times. -/
theorem concurrency_ge_one :
    (∀ (c : Int) (a : ConcurrencyAssign), 1 ≤ c → 1 ≤ applyAssign c a) ∧
    (∀ l : List ConcurrencyAssign,
       1 ≤ l.foldl applyAssign defaultConcurrency) := by
  have step : ∀ (c : Int) (a : ConcurrencyAssign), 1 ≤ c → 1 ≤ applyAssign c a := by
    intro c a hc
    cases a with
    | initial => norm_num [applyAssign, defaultConcurrency]
    | headerUpdate h =>
      simp only [applyAssign, updateFromHeaders]
      cases hm : jsMinList (callsLeft h) with
      | none => exact hc
      | some m => exact le_max_left 1 m
    | rateLimited429 => simp [applyAssign]
    | afterBackoff => norm_num [applyAssign, defaultConcurrency]
    | idleReset => norm_num [applyAssign, defaultConcurrency]
  refine ⟨step, ?_⟩
  have fold : ∀ (l : List ConcurrencyAssign) (c : Int),
      1 ≤ c → 1 ≤ l.foldl applyAssign c := by
    intro l
    induction l with
    | nil => intro c hc; simpa using hc
    | cons a t ih => intro c hc; simpa using ih _ (step c a hc)
  intro l
  exact fold l defaultConcurrency (by norm_num [defaultConcurrency])

/-- C8 witness: the 429 assignment applied to the initial default leaves
the invariant intact. -/
theorem concurrency_ge_one_witness :
    1 ≤ applyAssign defaultConcurrency .rateLimited429 :=
  concurrency_ge_one.1 defaultConcurrency .rateLimited429
    (by norm_num [defaultConcurrency])

/-- C9: the constructor fails fast when `apiKey` is falsy, and when a
supplied cache object carries neither `get` nor `set`; on success the
instance stores the api key and the cache and starts with an empty queue
registry. -/
theorem constructor_validation :
    (∀ cache inst, mkRiotRequest none cache ≠ .ok inst) ∧
    (∀ cache inst, mkRiotRequest (some []) cache ≠ .ok inst) ∧
    (∀ key c inst, c.hasGet = false → c.hasSet = false →
       mkRiotRequest (some key) (some c) ≠ .ok inst) ∧
    (∀ key cache inst, mkRiotRequest key cache = .ok inst →
       key = some inst.apiKey ∧ inst.cache = cache.getD defaultCache ∧
       inst.requestQueues = []) := by
  refine ⟨?_, ?_, ?_, ?_⟩
  · intro cache inst
    simp [mkRiotRequest]
  · intro cache inst
    simp [mkRiotRequest]
  · intro key c inst hg hs
    by_cases hk : key = [] <;> simp [mkRiotRequest, hk, hg, hs]
  · intro key cache inst h
    unfold mkRiotRequest at h
    split at h
    · exact absurd h (by simp)
    · next hkey =>
      split at h
      · exact absurd h (by simp)
      · simp only [Except.ok.injEq] at h
        subst h
        push_neg at hkey
        obtain ⟨hk1, hk2⟩ := hkey
        cases key with
        | none => exact absurd rfl hk1
        | some k => exact ⟨rfl, rfl, rfl⟩

/-- C1 counterexample: a response carrying app `limit=10,count=3` and
method `limit=100,count=5` processed while `running = 3` tasks are in
flight leaves the queue's concurrency at `min(10−3, 100−5) = 7`; the
claimed further reduction by `(running − 1)`, which would give
`max(1, 7 − (3 − 1)) = 5`, does not happen — the header block of
`getFromRiot` never reads `running()`. -/
theorem concurrency_inflight_cex :
    ((request [] [] [] 0 3 20 none none
        [.ok (some { appLimit := [⟨10, 1⟩], appCount := [⟨3, 1⟩],
                     methodLimit := [⟨100, 1⟩], methodCount := [⟨5, 1⟩] }) 42]).workerRun.map
      (fun r => r.concurrency)) = some 7 ∧
    ¬ (7 : Int) = max 1 (max 1 (min (10 - 3) (100 - 5)) - (3 - 1)) := by
  constructor
  · rfl
  · decide

/-- C1 (amended): after processing a response that carries application-
and method-scope rate-limit headers, the queue's concurrency equals
`max(1, minimum over all reported windows of limit minus count)`; no
reduction by `(running − 1)` is applied — the result is independent of the
number of in-flight requests.  In particular app `limit=10,count=3` and
method `limit=100,count=5` yield `min(10-3, 100-5) = 7`. -/
theorem concurrency_from_headers (region endpoint : JsStr) (concurrency : Int)
    (flag : Bool) (h : RateHeaders) (b : Nat) (m : Int)
    (hm : jsMinList (callsLeft h) = some m) :
    (stepAttempt region endpoint concurrency flag (.ok (some h) b)).1 = max 1 m ∧
    ∀ (method : JsStr) (running : Int) (preVal : Option Nat),
      (request region method endpoint 0 running concurrency preVal none
          [.ok (some h) b]).workerRun
        = some { concurrency := max 1 m, attempts := 1, cacheGets := 0,
                 delays := [], result := .deliver b false } := by
  constructor
  · simp [stepAttempt, updateFromHeaders, hm]
  · intro method running preVal
    simp [request, requestCore, runWorker, stepAttempt, workerGets,
      updateFromHeaders, hm, finishRequest]

/-- C1 witness: the amended statement at the spec's Scenario B headers,
with three requests in flight. -/
theorem concurrency_from_headers_witness :
    (stepAttempt [] [] 20 false
        (.ok (some { appLimit := [⟨10, 1⟩], appCount := [⟨3, 1⟩],
                     methodLimit := [⟨100, 1⟩], methodCount := [⟨5, 1⟩] }) 42)).1
      = max 1 7 ∧
    (request [] [] [] 0 3 20 none none
        [.ok (some { appLimit := [⟨10, 1⟩], appCount := [⟨3, 1⟩],
                     methodLimit := [⟨100, 1⟩], methodCount := [⟨5, 1⟩] }) 42]).workerRun
      = some { concurrency := max 1 7, attempts := 1, cacheGets := 0,
               delays := [], result := .deliver 42 false } := by
  have h := concurrency_from_headers [] [] 20 false
    { appLimit := [⟨10, 1⟩], appCount := [⟨3, 1⟩],
      methodLimit := [⟨100, 1⟩], methodCount := [⟨5, 1⟩] } 42 7 (by decide)
  exact ⟨h.1, h.2 [] 3 none⟩

/-- C2 counterexample: a 429 whose `retry-after` header is 0.01 seconds is
rescheduled after `0.01 * 1000 = 10` ms — the header value is used
verbatim (`(res.headers['retry-after'] || 2) * 1000`), which differs from
the claimed `max(retry-after, default period)`: with the hardcoded default
of 2 s that maximum would be 2000 ms. -/
theorem retry429_delay_cex :
    (stepAttempt [] [] 20 false (.httpError 429 none (some (1 / 100)))).2
      = .retry429 10 ∧
    ¬ ((1 / 100 : ℚ) * 1000 = max (1 / 100 : ℚ) 2 * 1000) := by
  constructor
  · norm_num [stepAttempt]
  · rw [max_eq_right (by norm_num : (1 / 100 : ℚ) ≤ 2)]
    norm_num

/-- C2 (amended): every 429 sets the queue's concurrency to 1 and
reschedules the same task — never failing it to the caller — after
`retry-after * 1000` ms when the header is present, and after the
hardcoded `2 * 1000` ms otherwise (no maximum is taken, and there is no
configurable default period); consecutive 429s repeat this without bound:
`n` straight 429s produce `n` attempts, `n` such delays, and a task that
is still pending, never dropped and never an error. -/
theorem retry429_reschedules (region endpoint : JsStr)
    (hdrs : Option RateHeaders) (ra : Option ℚ) :
    (∀ (c : Int) (flag : Bool),
       stepAttempt region endpoint c flag (.httpError 429 hdrs ra)
         = (1, .retry429 ((ra.getD 2) * 1000))) ∧
    (∀ (n : Nat) (c : Int) (flag : Bool),
       (runWorker region endpoint 0 none c flag
           (List.replicate n (.httpError 429 hdrs ra))).attempts = n ∧
       (runWorker region endpoint 0 none c flag
           (List.replicate n (.httpError 429 hdrs ra))).delays
         = List.replicate n ((ra.getD 2) * 1000) ∧
       (runWorker region endpoint 0 none c flag
           (List.replicate n (.httpError 429 hdrs ra))).result = .pending) := by
  have hstep : ∀ (c : Int) (flag : Bool),
      stepAttempt region endpoint c flag (.httpError 429 hdrs ra)
        = (1, .retry429 ((ra.getD 2) * 1000)) := by
    intro c flag
    cases hdrs <;> simp [stepAttempt]
  refine ⟨hstep, ?_⟩
  intro n
  induction n with
  | zero =>
    intro c flag
    simp [runWorker, workerGets]
  | succ k ih =>
    intro c flag
    obtain ⟨ha, hd, hr⟩ := ih defaultConcurrency flag
    simp [List.replicate_succ, runWorker, hstep, workerGets, ha, hd, hr]

/-- C3: an upstream 500 or 503 is retried exactly once, after the fixed
25 ms delay; when the retried attempt again yields a 500 or 503, no
further retry occurs and the caller's callback receives exactly one error
whose `statusCode` equals the upstream status, whose `riotInternal` flag
is true, and which carries the `extra` diagnostic object with the
endpoint, region, status, concurrency values, timeout flag and retry
flag. -/
theorem serverError_retried_once (region endpoint : JsStr) (c : Int)
    (s1 s2 : Nat) (h1 h2 : Option RateHeaders) (ra1 ra2 : Option ℚ)
    (hs1 : s1 = 500 ∨ s1 = 503) (hs2 : s2 = 500 ∨ s2 = 503) :
    (runWorker region endpoint 0 none c false
        [.httpError s1 h1 ra1, .httpError s2 h2 ra2]).attempts = 2 ∧
    (runWorker region endpoint 0 none c false
        [.httpError s1 h1 ra1, .httpError s2 h2 ra2]).delays = [25] ∧
    ∃ cc, (runWorker region endpoint 0 none c false
        [.httpError s1 h1 ra1, .httpError s2 h2 ra2]).result
      = .fail { statusCode := some s2, riotInternal := true, timeout := false,
                extra := { region := region, endpoint := endpoint,
                           status := some s2, currentConcurrency := cc,
                           defaultConcurrency := defaultConcurrency,
                           timeout := false, restartedAfter500 := true } } := by
  rcases hs1 with rfl | rfl <;> rcases hs2 with rfl | rfl <;>
    cases h1 <;> cases h2 <;>
      exact ⟨rfl, rfl, _, rfl⟩

/-- C3 witness: two consecutive 500s on a fresh task. -/
theorem serverError_retried_once_witness :
    (runWorker [] [] 0 none 20 false
        [.httpError 500 none none, .httpError 500 none none]).attempts = 2 ∧
    (runWorker [] [] 0 none 20 false
        [.httpError 500 none none, .httpError 500 none none]).delays = [25] ∧
    ∃ cc, (runWorker [] [] 0 none 20 false
        [.httpError 500 none none, .httpError 500 none none]).result
      = .fail { statusCode := some 500, riotInternal := true, timeout := false,
                extra := { region := [], endpoint := [],
                           status := some 500, currentConcurrency := cc,
                           defaultConcurrency := defaultConcurrency,
                           timeout := false, restartedAfter500 := true } } :=
  serverError_retried_once [] [] 20 500 500 none none none none
    (Or.inl rfl) (Or.inl rfl)

/-- C9 witness: a successful construction stores the key, the default
no-op cache and an empty queue registry. -/
theorem constructor_validation_witness :
    some [102] = some (RiotRequestInstance.apiKey
      { apiKey := [102], cache := defaultCache, requestQueues := [] }) ∧
    RiotRequestInstance.cache
      { apiKey := [102], cache := defaultCache, requestQueues := [] }
      = (none : Option CacheObject).getD defaultCache ∧
    RiotRequestInstance.requestQueues
      { apiKey := [102], cache := defaultCache, requestQueues := [] } = [] :=
  constructor_validation.2.2.2 (some [102]) none
    { apiKey := [102], cache := defaultCache, requestQueues := [] } (by decide)

/-- C4: with caching enabled, a saturated queue (`running ≥ concurrency`)
performs the pre-check cache read, and a hit is returned directly to the
caller without the task entering the queue; an unsaturated queue skips
the pre-check entirely and the task is enqueued directly. -/
theorem pre_cache_check (region method endpoint : JsStr) (cs : Nat)
    (running concurrency : Int) (preVal cacheVal : Option Nat)
    (script : List Attempt) (hcs : cs ≠ 0) :
    (∀ d, concurrency ≤ running → preVal = some d →
       (request region method endpoint cs running concurrency preVal cacheVal
           script).preCacheGet = true ∧
       (request region method endpoint cs running concurrency preVal cacheVal
           script).enqueued = false ∧
       (request region method endpoint cs running concurrency preVal cacheVal
           script).workerRun = none ∧
       (request region method endpoint cs running concurrency preVal cacheVal
           script).result = some (.ok d)) ∧
    (running < concurrency →
       (request region method endpoint cs running concurrency preVal cacheVal
           script).preCacheGet = false ∧
       (request region method endpoint cs running concurrency preVal cacheVal
           script).enqueued = true) := by
  constructor
  · intro d hsat hpre
    subst hpre
    simp [request, requestCore, hcs, not_lt.mpr hsat]
  · intro hlt
    simp [request, requestCore, hlt]

/-- C4 witness: a saturated queue with a populated cache serves the value
from the pre-check without enqueueing. -/
theorem pre_cache_check_witness :
    (request [] [] [] 150 3 3 (some 99) none []).preCacheGet = true ∧
    (request [] [] [] 150 3 3 (some 99) none []).enqueued = false ∧
    (request [] [] [] 150 3 3 (some 99) none []).workerRun = none ∧
    (request [] [] [] 150 3 3 (some 99) none []).result = some (.ok 99) :=
  (pre_cache_check [] [] [] 150 3 3 (some 99) none [] (by decide)).1
    99 (by decide) rfl

/-- C6: with a falsy `cacheStrategy` the pre-check never reads the cache,
the worker never reads the cache, nothing is written to the cache, and the
whole outcome is independent of the cache contents. -/
theorem cache_disabled_no_io (region method endpoint : JsStr)
    (running concurrency : Int) (preVal cacheVal preVal' cacheVal' : Option Nat)
    (script : List Attempt) :
    (request region method endpoint 0 running concurrency preVal cacheVal
        script).preCacheGet = false ∧
    (∀ run, (request region method endpoint 0 running concurrency preVal
        cacheVal script).workerRun = some run → run.cacheGets = 0) ∧
    (request region method endpoint 0 running concurrency preVal cacheVal
        script).setCalls = [] ∧
    request region method endpoint 0 running concurrency preVal cacheVal script
      = request region method endpoint 0 running concurrency preVal' cacheVal'
          script := by
  obtain ⟨heq, hget⟩ := runWorker_strategy_zero (jsToLowerCase region) endpoint
    script cacheVal cacheVal' concurrency false
  refine ⟨?_, ?_, ?_, ?_⟩
  · simp [request, requestCore]
  · intro run hrun
    simp only [request, requestCore] at hrun
    simp only [ne_eq, not_true_eq_false, false_and, if_false] at hrun
    rw [Option.some.injEq] at hrun
    rw [← hrun]
    exact hget
  · simp only [request, requestCore, ne_eq, not_true_eq_false, false_and,
      if_false]
    cases hres : (runWorker (jsToLowerCase region) endpoint 0 cacheVal
        concurrency false script).result <;>
      simp [finishRequest, hres]
  · simp [request, requestCore, heq]

/-- C6 witness: with caching disabled, swapping the cache contents does
not change the outcome and the worker makes no cache read. -/
theorem cache_disabled_no_io_witness :
    (request [] [] [] 0 0 20 (some 5) (some 6) []).preCacheGet = false ∧
    WorkerRun.cacheGets
      { concurrency := 20, attempts := 0, cacheGets := 0, delays := [],
        result := .pending } = 0 ∧
    (request [] [] [] 0 0 20 (some 5) (some 6) []).setCalls = [] ∧
    request [] [] [] 0 0 20 (some 5) (some 6) []
      = request [] [] [] 0 0 20 none none [] := by
  have h := cache_disabled_no_io [] [] [] 0 20 (some 5) (some 6) none none []
  exact ⟨h.1, h.2.1 _ rfl, h.2.2.1, h.2.2.2⟩

/-- C7 (spec-modelled): after `setThrottle(platform, method, amount)` the
queue's effective concurrency is `max(1, observedConcurrency − amount)`
where `observedConcurrency` is the header-derived value: it stays ≥ 1, is
strictly below the observed value whenever that value exceeds the floor,
and the observed (upstream-derived) value itself is what an identical run
without the throttle yields; `setThrottle(method, amount)` installs the
same reservation for every platform. -/
theorem throttle_reservation (platform method : JsStr) (amount c : Int)
    (h : RateHeaders) (ha : 1 ≤ amount) :
    effectiveConcurrency c h
        (setThrottlePlatform emptyThrottle platform method amount)
        platform method
      = max 1 (updateFromHeaders c h - amount) ∧
    1 ≤ effectiveConcurrency c h
        (setThrottlePlatform emptyThrottle platform method amount)
        platform method ∧
    (2 ≤ updateFromHeaders c h →
       effectiveConcurrency c h
           (setThrottlePlatform emptyThrottle platform method amount)
           platform method
         < updateFromHeaders c h) ∧
    effectiveConcurrency c h emptyThrottle platform method
      = max 1 (updateFromHeaders c h) ∧
    (∀ p : JsStr,
       throttleFor (setThrottleAll emptyThrottle method amount) p method
         = amount) := by
  have hres : throttleFor
      (setThrottlePlatform emptyThrottle platform method amount)
      platform method = amount := by
    simp [throttleFor, setThrottlePlatform, emptyThrottle, List.lookup]
  have hzero : throttleFor emptyThrottle platform method = 0 := by
    simp [throttleFor, emptyThrottle, List.lookup]
  refine ⟨?_, ?_, ?_, ?_, ?_⟩
  · simp [effectiveConcurrency, hres]
  · exact le_max_left 1 _
  · intro hobs
    rw [effectiveConcurrency, hres, max_def]
    split <;> omega
  · simp [effectiveConcurrency, hzero]
  · intro p
    simp [throttleFor, setThrottleAll, emptyThrottle, List.lookup]

/-- C7 witness: the test-suite scenario — observed concurrency 99 (app
200/1, method 100/1), reservation 50 — yields an effective concurrency of
`max(1, 99 − 50) = 49`, strictly below 99. -/
theorem throttle_reservation_witness :
    effectiveConcurrency 20
        { appLimit := [⟨200, 1⟩], appCount := [⟨1, 1⟩],
          methodLimit := [⟨100, 1⟩], methodCount := [⟨1, 1⟩] }
        (setThrottlePlatform emptyThrottle [1] [2] 50) [1] [2]
      = max 1 (updateFromHeaders 20
          { appLimit := [⟨200, 1⟩], appCount := [⟨1, 1⟩],
            methodLimit := [⟨100, 1⟩], methodCount := [⟨1, 1⟩] } - 50) ∧
    effectiveConcurrency 20
        { appLimit := [⟨200, 1⟩], appCount := [⟨1, 1⟩],
          methodLimit := [⟨100, 1⟩], methodCount := [⟨1, 1⟩] }
        (setThrottlePlatform emptyThrottle [1] [2] 50) [1] [2]
      < updateFromHeaders 20
          { appLimit := [⟨200, 1⟩], appCount := [⟨1, 1⟩],
            methodLimit := [⟨100, 1⟩], methodCount := [⟨1, 1⟩] } := by
  have h := throttle_reservation [1] [2] 50 20
    { appLimit := [⟨200, 1⟩], appCount := [⟨1, 1⟩],
      methodLimit := [⟨100, 1⟩], methodCount := [⟨1, 1⟩] } (by decide)
  exact ⟨h.1, h.2.2.1 (by decide)⟩

/-- C5: with caching enabled, a value served from either cache checkpoint
(the pre-check, which is the only path that skips enqueueing, or the
worker-side re-check, which reports `readFromCache = true`) causes no
`cache.set`; when both checks miss and the upstream fetch succeeds
(`readFromCache = false`), exactly one `cache.set` occurs, carrying the
exact data value returned to the caller and the exact `cacheStrategy`
token the caller passed in. -/
theorem cache_set_discipline (region method endpoint : JsStr) (cs : Nat)
    (running concurrency : Int) (preVal cacheVal : Option Nat)
    (script : List Attempt) (hcs : cs ≠ 0) :
    ((request region method endpoint cs running concurrency preVal cacheVal
        script).enqueued = false →
       (request region method endpoint cs running concurrency preVal cacheVal
         script).setCalls = []) ∧
    (∀ run d, (request region method endpoint cs running concurrency preVal
        cacheVal script).workerRun = some run →
       run.result = .deliver d true →
       (request region method endpoint cs running concurrency preVal cacheVal
         script).setCalls = []) ∧
    (∀ run d, (request region method endpoint cs running concurrency preVal
        cacheVal script).workerRun = some run →
       run.result = .deliver d false →
       (request region method endpoint cs running concurrency preVal cacheVal
           script).setCalls = [(jsToLowerCase region, endpoint, cs, d)] ∧
       (request region method endpoint cs running concurrency preVal cacheVal
           script).result = some (.ok d)) := by
  by_cases hq : cs ≠ 0 ∧ ¬(running < concurrency)
  · cases hp : preVal with
    | some d =>
      have hc := requestCore_prehit (jsToLowerCase region) endpoint cs running
        concurrency preVal cacheVal script hq d hp
      rw [hp] at hc
      refine ⟨?_, ?_, ?_⟩
      · intro _
        simp [request, hc]
      · intro run d' hrun _
        simp [request, hc] at hrun
      · intro run d' hrun _
        simp [request, hc] at hrun
    | none =>
      have hc := requestCore_enqueue_sat (jsToLowerCase region) endpoint cs
        running concurrency preVal cacheVal script hq hp
      rw [hp] at hc
      refine ⟨?_, ?_, ?_⟩
      · intro hfalse
        simp [request, hc] at hfalse
      · intro run d' hrun hres
        simp only [request, hc, Option.some.injEq] at hrun
        subst hrun
        simp [request, hc, finishRequest, hres, hcs]
      · intro run d' hrun hres
        simp only [request, hc, Option.some.injEq] at hrun
        subst hrun
        simp [request, hc, finishRequest, hres, hcs]
  · have hc := requestCore_enqueue_unsat (jsToLowerCase region) endpoint cs
      running concurrency preVal cacheVal script hq
    refine ⟨?_, ?_, ?_⟩
    · intro hfalse
      simp [request, hc] at hfalse
    · intro run d' hrun hres
      simp only [request, hc, Option.some.injEq] at hrun
      subst hrun
      simp [request, hc, finishRequest, hres, hcs]
    · intro run d' hrun hres
      simp only [request, hc, Option.some.injEq] at hrun
      subst hrun
      simp [request, hc, finishRequest, hres, hcs]

/-- C5 witness: both checkpoints miss, the upstream succeeds with body 7
under strategy token 150 — one `set` with exactly those values. -/
theorem cache_set_discipline_witness :
    (request [] [] [3] 150 0 20 none none [.ok none 7]).setCalls
      = [([], [3], 150, 7)] ∧
    (request [] [] [3] 150 0 20 none none [.ok none 7]).result
      = some (.ok 7) :=
  (cache_set_discipline [] [] [3] 150 0 20 none none [.ok none 7]
      (by decide)).2.2
    { concurrency := 20, attempts := 1, cacheGets := 1, delays := [],
      result := .deliver 7 false }
    7 rfl rfl

/-- C10: `request` lowercases both region and method on entry — a call is
indistinguishable from the same call with pre-lowercased arguments — the
queue key is the concatenation of the lowercased region and method, the
lowercased region is the one the queue (cache reads and upstream URL)
uses, and the queue registry is memoized: once a key holds a queue, later
lookups return that same queue and leave the registry unchanged. -/
theorem request_case_insensitive (region method endpoint : JsStr) (cs : Nat)
    (running concurrency : Int) (preVal cacheVal : Option Nat)
    (script : List Attempt) :
    request region method endpoint cs running concurrency preVal cacheVal
        script
      = request (jsToLowerCase region) (jsToLowerCase method) endpoint cs
          running concurrency preVal cacheVal script ∧
    (request region method endpoint cs running concurrency preVal cacheVal
        script).queueKey
      = jsToLowerCase region ++ jsToLowerCase method ∧
    (request region method endpoint cs running concurrency preVal cacheVal
        script).queueRegion
      = jsToLowerCase region ∧
    (∀ (queues queues' : List (JsStr × Nat)) (key : JsStr)
        (fresh fresh' q : Nat),
       getOrCreateQueue queues key fresh = (q, queues') →
       getOrCreateQueue queues' key fresh' = (q, queues')) := by
  refine ⟨?_, rfl, rfl, ?_⟩
  · simp [request, jsToLowerCase_idem]
  · intro queues queues' key fresh fresh' q hq
    unfold getOrCreateQueue at hq ⊢
    cases hl : queues.lookup key with
    | some q0 =>
      rw [hl] at hq
      injection hq with h1 h2
      subst h1
      subst h2
      rw [hl]
    | none =>
      rw [hl] at hq
      injection hq with h1 h2
      subst h1
      subst h2
      simp [List.lookup]

/-- C10 witness: `request('EUW1'-style uppercase tags)` equals the
lowercased call, and a second registry access on the same key returns the
memoized queue. -/
theorem request_case_insensitive_witness :
    request [69] [84] [] 0 0 20 none none []
      = request [101] [116] [] 0 0 20 none none [] ∧
    getOrCreateQueue [([101, 116], 0)] [101, 116] 1 = (0, [([101, 116], 0)]) := by
  constructor
  · exact (request_case_insensitive [69] [84] [] 0 0 20 none none []).1
  · exact (request_case_insensitive [] [] [] 0 0 20 none none []).2.2.2
      [([101, 116], 0)] [([101, 116], 0)] [101, 116] 0 1 0 rfl

end RiotLolApi
